import Mathlib

/-!
Shallow embedding of the agent orchestration layer in
src/app/app/agent_framework_manager.py (class AgentFrameworkManager):
the tool-calling conversation loop, the two tool executors, the
specialist registry and the chat entry point with its session store.

The Azure OpenAI completion client is modelled as a function from the
current message history to an optional completion (content, tool calls,
usage) — the data `_chat_with_tools` extracts from either client branch.
`json.loads` is modelled as a parameter of type String → Option Json.
-/

namespace AgentFramework

/-- Mirrors the tool-call dicts built in `_chat_with_tools`:
id, function.name and function.arguments (raw JSON text). -/
structure ToolCall where
  id : String
  name : String
  arguments : String
deriving Repr, DecidableEq

/-- Chat message dict: role, content, optional tool_calls list (assistant
messages) and optional tool_call_id (tool messages). -/
structure Message where
  role : String
  content : String
  tool_calls : List ToolCall := []
  tool_call_id : Option String := none
deriving Repr, DecidableEq

/-- JSON values, the possible results of `json.loads`. -/
inductive Json where
  | str : String → Json
  | num : Int → Json
  | bool : Bool → Json
  | null : Json
  | arr : List Json → Json
  | obj : List (String × Json) → Json

/-- Escape for Python json.dumps string output (quote and backslash). -/
def jsonEscapeChar (c : Char) : String :=
  if c = '\"' then "\\\"" else if c = '\\' then "\\\\" else String.singleton c

def jsonEscape (s : String) : String :=
  String.join (s.toList.map jsonEscapeChar)

def jsonQuote (s : String) : String :=
  "\"" ++ jsonEscape s ++ "\""

mutual

/-- Python `json.dumps` with its default separators. -/
def jsonDumps : Json → String
  | .str s => jsonQuote s
  | .num n => toString n
  | .bool b => if b then "true" else "false"
  | .null => "null"
  | .arr xs => "[" ++ jsonDumpsList xs ++ "]"
  | .obj fs => "\x7b" ++ jsonDumpsFields fs ++ "\x7d"

def jsonDumpsList : List Json → String
  | [] => ""
  | [x] => jsonDumps x
  | x :: xs => jsonDumps x ++ ", " ++ jsonDumpsList xs

def jsonDumpsFields : List (String × Json) → String
  | [] => ""
  | [(k, v)] => jsonQuote k ++ ": " ++ jsonDumps v
  | (k, v) :: fs => jsonQuote k ++ ": " ++ jsonDumps v ++ ", " ++ jsonDumpsFields fs

end

/-- Python `str()` applied to a JSON-shaped value (used for non-dict,
non-list tool results in `_execute_tool_call`). -/
def pyStr : Json → String
  | .str s => s
  | .num n => toString n
  | .bool b => if b then "True" else "False"
  | .null => "None"
  | j => jsonDumps j

/-- Python `x or y` on strings/optional strings modelled as strings
(falsy means empty). -/
def pyOr (a b : String) : String :=
  if a = "" then b else a

/-- Python `str.strip()` modelled on ASCII whitespace. -/
def pyStrip (s : String) : String :=
  String.mk (((s.data.dropWhile Char.isWhitespace).reverse.dropWhile
    Char.isWhitespace).reverse)

/-- Python `str.lower()` modelled on ASCII letters. -/
def pyLower (s : String) : String :=
  String.mk (s.data.map Char.toLower)

/-- Usage dict extracted from a completion response. -/
structure Usage where
  prompt_tokens : Nat
  completion_tokens : Nat
  total_tokens : Nat
deriving Repr, DecidableEq

/-- What `_chat_with_tools` extracts from one completion response:
assistant content, tool calls and optional usage. -/
structure Completion where
  content : String
  tool_calls : List ToolCall
  usage : Option Usage
deriving Repr, DecidableEq

/-- The exceptions the embedded code can raise. -/
inductive ChatError where
  | noMessage
  | maxIterations
  | noExecutor
  | attributeError
  | valueError (msg : String)
  | keyError (msg : String)
deriving Repr, DecidableEq

/-- Container mirroring the ChatResult dataclass; metadata is the
optional usage dict stored under the "usage" key. -/
structure ChatResult where
  response : String
  thread_id : String
  agent_id : String
  run_id : String
  metadata : Option Usage := none
deriving Repr, DecidableEq

/-- The settings fields `AgentFrameworkManager.__init__` reads for agent
identities (Optional[str] fields are the empty string when unset). -/
structure Settings where
  fabric_sales_agent_id : String
  fabric_realtime_agent_id : String
  fabric_analytics_agent_id : String
  fabric_financial_agent_id : String
  fabric_support_agent_id : String
  fabric_operations_agent_id : String
  fabric_customer_success_agent_id : String
  fabric_operations_excellence_agent_id : String
  fabric_orchestrator_agent_id : String
deriving Repr, DecidableEq

/-- One specialist profile entry (display_name, id, prompt, tools). -/
structure Profile where
  display_name : String
  id : String
  prompt : String
  tools : List String
deriving Repr, DecidableEq

/-- Association-list lookup, mirroring Python dict `.get`. -/
def assocLookup {β : Type} : List (String × β) → String → Option β
  | [], _ => none
  | (k, v) :: rest, key => if k = key then some v else assocLookup rest key

/-- The completion client: maps the current history to the extracted
completion data, or none when the response carries no message. -/
abbrev Client := List Message → Option Completion

/-- A tool executor: may raise (Except.error) like an awaited coroutine. -/
abbrev ToolExec := ToolCall → Except ChatError String

/-- Content of a tool message: `str(tool_output) if tool_output else
"Tool execution completed"` (empty output is falsy). -/
def toolOutputContent (out : String) : String :=
  if out = "" then "Tool execution completed" else out

/-- The per-call loop body over one assistant message's tool calls:
each call is executed and a tool message with its id is built; an
executor exception propagates. -/
def runToolCalls (exec : ToolExec) : List ToolCall → Except ChatError (List Message)
  | [] => .ok []
  | c :: rest =>
    match exec c with
    | .error e => .error e
    | .ok out =>
      match runToolCalls exec rest with
      | .error e => .error e
      | .ok tail =>
        .ok ({ role := "tool", content := toolOutputContent out,
               tool_calls := [], tool_call_id := some c.id } :: tail)

/-- `_clone_message`: a value copy of the message (tool_calls deep-copied
via json round-trip in the source, which preserves the value). -/
def cloneMessage (m : Message) : Message :=
  { role := m.role, content := m.content,
    tool_calls := m.tool_calls, tool_call_id := m.tool_call_id }

/-- The while-loop of `_chat_with_tools`, with the remaining iteration
budget as fuel. Each round appends the assistant message; a tool-free
round returns; otherwise tool messages are appended and the loop
continues; exhausting the budget raises
"Agent interaction exceeded maximum iterations". -/
def chatLoop (client : Client) (toolExec : Option ToolExec) :
    Nat → List Message → Except ChatError (String × List Message × Option Usage)
  | 0, _ => .error .maxIterations
  | fuel + 1, history =>
    match client history with
    | none => .error .noMessage
    | some c =>
      let assistantMessage : Message :=
        { role := "assistant", content := c.content, tool_calls := c.tool_calls }
      let history1 := history ++ [assistantMessage]
      if c.tool_calls.isEmpty then
        .ok (c.content, history1, c.usage)
      else
        match toolExec with
        | none => .error .noExecutor
        | some exec =>
          match runToolCalls exec c.tool_calls with
          | .error e => .error e
          | .ok toolMessages =>
            chatLoop client toolExec fuel (history1 ++ toolMessages)

/-- `_chat_with_tools`: clones the seed messages and runs the loop with
the given iteration budget (every caller uses the default 5). -/
def chatWithTools (client : Client) (toolExec : Option ToolExec)
    (messages : List Message) (maxIterations : Nat) :
    Except ChatError (String × List Message × Option Usage) :=
  chatLoop client toolExec maxIterations (messages.map cloneMessage)

/-- Argument parsing in `_execute_tool_call` (lines 573-577): empty raw
text gives an empty dict; a JSONDecodeError is caught and the arguments
become the empty dict. -/
def specArguments (parse : String → Option Json) (argsRaw : String) : Json :=
  if argsRaw = "" then .obj []
  else
    match parse argsRaw with
    | some j => j
    | none => .obj []

/-- Argument parsing in `_execute_orchestrator_tool` (lines 546-551):
empty raw text gives an empty dict; a JSONDecodeError is caught and the
raw text becomes the single "question" string argument. -/
def orchArguments (parse : String → Option Json) (argsRaw : String) : Json :=
  if argsRaw = "" then .obj []
  else
    match parse argsRaw with
    | some j => j
    | none => .obj [("question", .str argsRaw)]

/-- `arguments.get("question", "")`: default empty string when the key is
absent; an AttributeError when arguments is not a dict or the value is
not a string (`.strip()` on a non-string). -/
def questionOf : Json → Except ChatError String
  | .obj fields =>
    match assocLookup fields "question" with
    | none => .ok ""
    | some (.str s) => .ok s
    | some _ => .error .attributeError
  | _ => .error .attributeError

/-- `_execute_tool_call`: parses arguments (errors caught), runs the
underlying `execute_tool_call` dispatcher (modelled as `runTool`, with
the user context closed over); an execution exception is caught and
becomes an error dict; dict/list results are json-dumped, others passed
through `str`. -/
def executeToolCall (parse : String → Option Json)
    (runTool : String → Json → Except String Json)
    (call : ToolCall) : Except ChatError String :=
  let arguments := specArguments parse call.arguments
  let result : Json :=
    match runTool call.name arguments with
    | .ok r => r
    | .error exc => .obj [("error", .str exc)]
  match result with
  | .obj fs => .ok (jsonDumps (.obj fs))
  | .arr xs => .ok (jsonDumps (.arr xs))
  | r => .ok (pyStr r)

/-- The `_tool_to_agent` routing table. -/
def toolToAgent : List (String × String) :=
  [ ("call_sales_specialist", "sales"),
    ("call_operations_specialist", "operations"),
    ("call_analytics_specialist", "analytics"),
    ("call_financial_specialist", "financial"),
    ("call_support_specialist", "support"),
    ("call_operations_coordinator", "coordinator"),
    ("call_customer_success_specialist", "customer_success"),
    ("call_operations_excellence_specialist", "operations_excellence") ]

/-- Tool names of SALES_TOOLS in src/app/app/agent_tools.py. -/
def SALES_TOOLS : List String :=
  ["get_sales_summary", "get_customer_demographics"]

/-- Tool names of FABRIC_TOOLS in src/app/app/agent_tools.py. -/
def FABRIC_TOOLS : List String :=
  ["get_sales_summary", "get_customer_demographics",
   "get_inventory_status", "get_performance_metrics"]

/-- Tool names of CALCULATION_TOOLS in src/app/app/agent_tools.py. -/
def CALCULATION_TOOLS : List String :=
  ["calculate_roi", "forecast_revenue"]

/-- Tool names of WEATHER_TOOLS in src/app/app/agent_tools.py. -/
def WEATHER_TOOLS : List String :=
  ["get_weather", "get_forecast"]

/-- The `specialist_profiles` registry built in `__init__`, keyed by
specialist key, with the prompts of the source. -/
def specialistProfiles (s : Settings) : List (String × Profile) :=
  [ ("sales",
     { display_name := "SalesAssistant",
       id := s.fabric_sales_agent_id,
       prompt :=
         "You are SalesAssistant. Provide revenue insights, top products, and sales trends " ++
         "using clear, metric-driven language. When data is requested, call the provided " ++
         "tools to gather accurate figures before responding. Summaries should highlight key " ++
         "successes and risks, ending with an actionable recommendation. Data is automatically " ++
         "filtered by the user's authorized region.",
       tools := SALES_TOOLS }),
    ("operations",
     { display_name := "OperationsAssistant",
       id := s.fabric_realtime_agent_id,
       prompt :=
         "You are OperationsAssistant. Monitor real-time operational metrics, uptime, and system " ++
         "health. Use Fabric data tools to reference current status and highlight incidents. Focus " ++
         "on providing concise readiness summaries and next best actions.",
       tools := FABRIC_TOOLS }),
    ("analytics",
     { display_name := "AnalyticsAssistant",
       id := pyOr s.fabric_analytics_agent_id "analytics-agent-framework",
       prompt :=
         "You are AnalyticsAssistant, a senior business intelligence analyst specializing in Microsoft Fabric data.\n" ++
         "Capabilities:\n" ++
         "- Analyze sales performance, growth trends, and seasonality\n" ++
         "- Provide customer demographic insights and segmentation\n" ++
         "- Monitor inventory, fulfillment, and operational KPIs\n" ++
         "- Summarize key patterns with supporting data points\n\n" ++
         "When users request reports or visualizations, provide the insights and let the system know " ++
         "that charts will be automatically generated. Always cite metrics and suggest actionable insights.",
       tools := FABRIC_TOOLS }),
    ("financial",
     { display_name := "FinancialAdvisor",
       id := pyOr s.fabric_financial_agent_id "financial-agent-framework",
       prompt :=
         "You are FinancialAdvisor. Offer ROI calculations, revenue forecasting, and profitability analysis.\n" ++
         "When presenting financial forecasts or comparisons, structure your response with clear numbers " ++
         "and note that interactive charts will be displayed automatically. Whenever math is needed, call " ++
         "the calculation tools to provide accurate numbers. Explain your assumptions, outline risks, " ++
         "and conclude with a financial recommendation.",
       tools := CALCULATION_TOOLS }),
    ("support",
     { display_name := "CustomerSupportAssistant",
       id := pyOr s.fabric_support_agent_id "support-agent-framework",
       prompt :=
         "You are CustomerSupportAssistant, a friendly and empathetic support specialist.\n" ++
         "Clarify the customer request, offer clear troubleshooting steps, and suggest helpful follow-ups.",
       tools := [] }),
    ("coordinator",
     { display_name := "OperationsCoordinator",
       id := pyOr s.fabric_operations_agent_id "operations-coordinator-framework",
       prompt :=
         "You are OperationsCoordinator overseeing logistics and supply chain status.\n" ++
         "Combine Fabric metrics with weather insights when appropriate to anticipate disruptions.",
       tools := FABRIC_TOOLS ++ WEATHER_TOOLS }),
    ("customer_success",
     { display_name := "CustomerSuccessAgent",
       id := pyOr s.fabric_customer_success_agent_id "customer-success-framework",
       prompt :=
         "You are CustomerSuccessAgent focused on customer satisfaction, retention, and growth.\n" ++
         "Analyze customer health scores, engagement metrics, churn risk, and expansion opportunities. " ++
         "Use Fabric data tools to provide insights on customer lifecycle, NPS scores, support ticket trends, " ++
         "and product adoption. Provide actionable recommendations to improve customer outcomes and drive retention.",
       tools := FABRIC_TOOLS }),
    ("operations_excellence",
     { display_name := "OperationsExcellenceAgent",
       id := pyOr s.fabric_operations_excellence_agent_id "operations-excellence-framework",
       prompt :=
         "You are OperationsExcellenceAgent dedicated to operational efficiency and process optimization.\n" ++
         "Monitor KPIs related to productivity, quality, cost management, and process improvements. " ++
         "Use Fabric data to analyze operational bottlenecks, resource utilization, cycle times, and efficiency metrics. " ++
         "Provide data-driven recommendations to streamline operations, reduce waste, and enhance overall performance.",
       tools := FABRIC_TOOLS }) ]

/-- The orchestrator system prompt built in `__init__`. -/
def orchestratorPrompt : String :=
  "You are RetailAssistantOrchestrator. Analyze each user request, decide whether to answer directly " ++
  "or to call one of the specialist functions. Available specialists:\n" ++
  "- SalesAssistant: revenue insights, sales trends, top products\n" ++
  "- OperationsAssistant: real-time metrics, system health, uptime\n" ++
  "- AnalyticsAssistant: business intelligence, patterns, KPIs\n" ++
  "- FinancialAdvisor: ROI, forecasting, profitability\n" ++
  "- CustomerSupportAssistant: troubleshooting, customer service\n" ++
  "- OperationsCoordinator: logistics, supply chain, weather impacts\n" ++
  "- CustomerSuccessAgent: customer health, retention, engagement, churn risk\n" ++
  "- OperationsExcellenceAgent: efficiency, process optimization, productivity KPIs\n\n" ++
  "When a specialist is used, summarize their findings, cite the specialist by name, and add your own " ++
  "brief recommendation. If no specialist is required, answer confidently using available context."

/-- `self.orchestrator_agent_id`. -/
def orchestratorAgentId (s : Settings) : String :=
  pyOr s.fabric_orchestrator_agent_id "agent-framework-orchestrator"

/-- The seed history `_run_specialist` builds: the specialist's system
prompt and the routed question only. -/
def specialistSeed (p : Profile) (question : String) : List Message :=
  [ { role := "system", content := p.prompt },
    { role := "user", content := question } ]

/-- The tool executor `_run_specialist` chooses: `_execute_tool_call`
when the profile has tools, none otherwise. -/
def specialistToolExec (parse : String → Option Json)
    (runTool : String → Json → Except String Json) (p : Profile) :
    Option ToolExec :=
  if p.tools.isEmpty then none else some (executeToolCall parse runTool)

/-- `_run_specialist`: runs the conversation loop on the fresh two-message
seed and strips the system message from the returned history. -/
def runSpecialist (client : Client) (parse : String → Option Json)
    (runTool : String → Json → Except String Json) (s : Settings)
    (agentKey question : String) :
    Except ChatError (String × List Message) :=
  match assocLookup (specialistProfiles s) agentKey with
  | none => .error (.keyError agentKey)
  | some p =>
    match chatWithTools client (specialistToolExec parse runTool p)
        (specialistSeed p question) 5 with
    | .error e => .error e
    | .ok (text, history, _) =>
      .ok (text, history.filter (fun m => m.role != "system"))

/-- `_execute_orchestrator_tool`: parse the arguments (malformed JSON
becomes a question string), look up the routed specialist key (unknown
names yield an error payload), run the specialist on the stripped
question, and serialize \x7bagent, agent_id, answer\x7d. The
specialist run is not guarded: its exceptions propagate. -/
def executeOrchestratorTool (parse : String → Option Json)
    (runSpec : String → String → Except ChatError String)
    (s : Settings) (call : ToolCall) : Except ChatError String :=
  let arguments := orchArguments parse call.arguments
  match assocLookup toolToAgent call.name with
  | none => .ok (jsonDumps (.obj [("error", .str ("Unknown tool " ++ call.name))]))
  | some agentKey =>
    match questionOf arguments with
    | .error e => .error e
    | .ok q =>
      let question := pyStrip q
      match runSpec agentKey question with
      | .error e => .error e
      | .ok answer =>
        match assocLookup (specialistProfiles s) agentKey with
        | none => .error (.keyError agentKey)
        | some p =>
          .ok (jsonDumps (.obj
            [ ("agent", .str p.display_name),
              ("agent_id", .str p.id),
              ("answer", .str answer) ]))

/-- `_run_orchestrator`: prepend the orchestrator system prompt, run the
loop with the orchestrator tool executor, and strip system messages from
the persisted history. -/
def runOrchestrator (client : Client) (orchExec : ToolExec)
    (sessionHistory : List Message) :
    Except ChatError (String × List Message × Option Usage) :=
  match chatWithTools client (some orchExec)
      ({ role := "system", content := orchestratorPrompt } :: sessionHistory) 5 with
  | .error e => .error e
  | .ok (text, fullHistory, usage) =>
    .ok (text, fullHistory.filter (fun m => m.role != "system"), usage)

/-- Agent-type normalization at the top of `chat`: lowercase the trimmed
type and send the empty string, "sales", "orchestrator", "auto" and
"default" to the orchestrator. -/
def normalizeAgentType (agentType : Option String) : String :=
  let normalized := pyLower (pyStrip (agentType.getD ""))
  if normalized = "" ∨ normalized = "sales" ∨ normalized = "orchestrator" ∨
      normalized = "auto" ∨ normalized = "default"
  then "orchestrator" else normalized

/-- The session store: thread id → message history. -/
abbrev Sessions := List (String × List Message)

/-- Python dict assignment `sessions[tid] = h`. -/
def sessionsSet : Sessions → String → List Message → Sessions
  | [], tid, h => [(tid, h)]
  | (k, v) :: rest, tid, h =>
    if k = tid then (tid, h) :: rest else (k, v) :: sessionsSet rest tid h

/-- The f-string rendering of the optional agent type in the
"Unknown agent type" ValueError. -/
def pyShowOpt : Option String → String
  | none => "None"
  | some a => a

/-- The thread id `chat` settles on (lines 321-324 of the source): a
falsy (absent or empty) thread id draws the fresh uuid. -/
def chatTid (newUuid : String) (threadId : Option String) : String :=
  if (threadId.getD "") = "" then newUuid else threadId.getD ""

/-- The locked session-store update at the top of `chat`: a falsy or
unknown thread id gets an empty-history entry before anything else
runs. -/
def chatEnsure (sessions : Sessions) (newUuid : String)
    (threadId : Option String) : Sessions :=
  if (threadId.getD "") = "" ∨ (assocLookup sessions (threadId.getD "")).isNone
  then sessionsSet sessions (chatTid newUuid threadId) []
  else sessions

/-- `chat`: normalize the agent type, ensure a session entry exists
(under the lock), append the user message to a snapshot of the stored
history, then run the orchestrator or the named specialist and write the
updated history back. Returns the result (or the raised exception) with
the final session store. `newUuid` and `runUuid` stand for the fresh
`uuid.uuid4()` draws. -/
def chat (client : Client) (orchExec : ToolExec)
    (parse : String → Option Json)
    (runTool : String → Json → Except String Json)
    (s : Settings) (sessions : Sessions) (newUuid runUuid : String)
    (message : String) (agentType : Option String)
    (threadId : Option String) :
    Except ChatError ChatResult × Sessions :=
  let normalizedType := normalizeAgentType agentType
  let tid := chatTid newUuid threadId
  let sessions1 := chatEnsure sessions newUuid threadId
  let stored := (assocLookup sessions1 tid).getD []
  let sessionHistory := stored ++ [{ role := "user", content := message }]
  if normalizedType = "orchestrator" then
    match runOrchestrator client orchExec sessionHistory with
    | .error e => (.error e, sessions1)
    | .ok (text, updatedHistory, usage) =>
      (.ok { response := text, thread_id := tid,
             agent_id := orchestratorAgentId s, run_id := runUuid,
             metadata := usage },
       sessionsSet sessions1 tid updatedHistory)
  else
    match assocLookup (specialistProfiles s) normalizedType with
    | none =>
      (.error (.valueError ("Unknown agent type: " ++ pyShowOpt agentType)),
       sessions1)
    | some p =>
      match runSpecialist client parse runTool s normalizedType message with
      | .error e => (.error e, sessions1)
      | .ok (text, specialistHistory) =>
        (.ok { response := text, thread_id := tid, agent_id := p.id,
               run_id := runUuid, metadata := none },
         sessionsSet sessions1 tid (sessionHistory ++ specialistHistory))

/-- The pairing invariant of claim C4: scanning the history with a list
of tool calls still to be answered; each assistant message opens its own
tool-call list, every pending call must be answered by the next message,
a tool message with the matching id, and a tool message is allowed only
while calls are pending. -/
def checkPairs : List ToolCall → List Message → Bool
  | [], [] => true
  | _ :: _, [] => false
  | [], m :: rest =>
    if m.role = "tool" then false
    else if m.role = "assistant" then checkPairs m.tool_calls rest
    else checkPairs [] rest
  | c :: cs, m :: rest =>
    if m.role = "tool" ∧ m.tool_call_id = some c.id then checkPairs cs rest
    else false

/-! Concrete fixtures used to exercise the definitions. -/

/-- A concrete settings record. -/
def settings0 : Settings :=
  { fabric_sales_agent_id := "sales-id",
    fabric_realtime_agent_id := "realtime-id",
    fabric_analytics_agent_id := "",
    fabric_financial_agent_id := "",
    fabric_support_agent_id := "",
    fabric_operations_agent_id := "",
    fabric_customer_success_agent_id := "",
    fabric_operations_excellence_agent_id := "",
    fabric_orchestrator_agent_id := "orch-id" }

/-- A json.loads stub that fails on every input (malformed JSON). -/
def parseNone : String → Option Json := fun _ => none

/-- A json.loads stub returning a fixed question object. -/
def parseQuestion : String → Option Json :=
  fun _ => some (.obj [("question", .str " How are sales? ")])

/-- A tool dispatcher echoing its parsed arguments back as the result. -/
def echoTool : String → Json → Except String Json := fun _ a => .ok a

/-- A tool dispatcher that always raises. -/
def failTool : String → Json → Except String Json := fun _ _ => .error "boom"

/-- A tool dispatcher that always succeeds with a string. -/
def okTool : String → Json → Except String Json := fun _ _ => .ok (.str "42")

/-- A client that always answers with plain text and no tool calls. -/
def clientText (t : String) : Client := fun _ => some ⟨t, [], none⟩

/-- A client that always answers with text, no tool calls and usage. -/
def clientTextUsage : Client := fun _ => some ⟨"All good", [], some ⟨10, 5, 15⟩⟩

/-- A client that requests a tool call on every completion. -/
def clientLoop : Client :=
  fun _ => some ⟨"", [⟨"tc1", "get_sales_summary", ""⟩], none⟩

/-- A client that requests one tool call on an empty seed history and
answers with text afterwards. -/
def clientOnce : Client :=
  fun history =>
    if history.isEmpty then some ⟨"", [⟨"tc1", "get_sales_summary", ""⟩], none⟩
    else some ⟨"done", [], none⟩

/-- A tool executor that always succeeds. -/
def execOk : ToolExec := fun _ => .ok "out"

/-- A client whose response carries no message. -/
def clientNone : Client := fun _ => none

/-- A client that issues one orchestrator routing call on the first
completion (seed of length 2: system prompt plus one user message) and
answers with text afterwards. -/
def clientRouteOnce : Client :=
  fun history =>
    if history.length ≤ 2
    then some ⟨"", [⟨"c1", "call_sales_specialist", ""⟩], none⟩
    else some ⟨"done", [], none⟩

/-! Helper lemmas. -/

theorem cloneMessage_eq (m : Message) : cloneMessage m = m := rfl

theorem map_cloneMessage (l : List Message) : l.map cloneMessage = l := by
  have h : cloneMessage = id := funext fun m => rfl
  rw [h, List.map_id]

theorem assocLookup_sessionsSet_self (ss : Sessions) (tid : String)
    (h : List Message) : assocLookup (sessionsSet ss tid h) tid = some h := by
  induction ss with
  | nil => simp [sessionsSet, assocLookup]
  | cons kv rest ih =>
    obtain ⟨k, v⟩ := kv
    by_cases hk : k = tid
    · simp [sessionsSet, hk, assocLookup]
    · simp [sessionsSet, hk, assocLookup, ih]

theorem runToolCalls_total (exec : ToolExec)
    (he : ∀ call, ∃ out, exec call = .ok out) :
    ∀ calls, ∃ msgs, runToolCalls exec calls = .ok msgs ∧
      msgs.length = calls.length := by
  intro calls
  induction calls with
  | nil => exact ⟨[], rfl, rfl⟩
  | cons c cs ih =>
    obtain ⟨out, ho⟩ := he c
    obtain ⟨msgs, hm, hl⟩ := ih
    exact ⟨{ role := "tool", content := toolOutputContent out, tool_calls := [],
             tool_call_id := some c.id } :: msgs,
           by simp [runToolCalls, ho, hm], by simp [hl]⟩

theorem checkPairs_runToolCalls (exec : ToolExec) :
    ∀ calls msgs, runToolCalls exec calls = .ok msgs →
      checkPairs calls msgs = true := by
  intro calls
  induction calls with
  | nil =>
    intro msgs h
    simp only [runToolCalls] at h
    cases h
    rfl
  | cons c cs ih =>
    intro msgs h
    simp only [runToolCalls] at h
    cases he : exec c with
    | error e => rw [he] at h; cases h
    | ok out =>
      rw [he] at h
      cases hr : runToolCalls exec cs with
      | error e => rw [hr] at h; cases h
      | ok tail =>
        rw [hr] at h
        cases h
        simp [checkPairs, ih tail hr]

theorem checkPairs_append :
    ∀ (h : List Message) (pending : List ToolCall) (k : List Message),
      checkPairs pending h = true → checkPairs [] k = true →
      checkPairs pending (h ++ k) = true := by
  intro h
  induction h with
  | nil =>
    intro pending k h1 h2
    cases pending with
    | nil => simpa using h2
    | cons c cs => simp [checkPairs] at h1
  | cons m rest ih =>
    intro pending k h1 h2
    cases pending with
    | nil =>
      simp only [checkPairs, List.cons_append] at h1 ⊢
      by_cases ht : m.role = "tool"
      · simp [ht] at h1
      · by_cases ha : m.role = "assistant"
        · simp [ht, ha] at h1 ⊢
          exact ih _ _ h1 h2
        · simp [ht, ha] at h1 ⊢
          exact ih _ _ h1 h2
    | cons c cs =>
      simp only [checkPairs, List.cons_append] at h1 ⊢
      by_cases hcond : m.role = "tool" ∧ m.tool_call_id = some c.id
      · simp [hcond] at h1 ⊢
        exact ih _ _ h1 h2
      · simp [hcond] at h1

theorem chatLoop_stuck (client : Client) (exec : ToolExec)
    (hc : ∀ hist, ∃ c, client hist = some c ∧ c.tool_calls ≠ [])
    (he : ∀ call, ∃ out, exec call = .ok out) :
    ∀ fuel hist, chatLoop client (some exec) fuel hist = .error .maxIterations := by
  intro fuel
  induction fuel with
  | zero => intro hist; rfl
  | succ n ih =>
    intro hist
    obtain ⟨c, hcl, hne⟩ := hc hist
    obtain ⟨msgs, hrun, _⟩ := runToolCalls_total exec he c.tool_calls
    have hemp : c.tool_calls.isEmpty = false := by
      cases hcs : c.tool_calls with
      | nil => exact absurd hcs hne
      | cons a as => rfl
    simp only [chatLoop, hcl]
    simp [hemp, hrun, ih]

theorem chatLoop_pairs (client : Client) (toolExec : Option ToolExec) :
    ∀ fuel hist t h2 u, checkPairs [] hist = true →
      chatLoop client toolExec fuel hist = .ok (t, h2, u) →
      checkPairs [] h2 = true := by
  intro fuel
  induction fuel with
  | zero =>
    intro hist t h2 u _ h
    simp [chatLoop] at h
  | succ n ih =>
    intro hist t h2 u hck h
    simp only [chatLoop] at h
    cases hcl : client hist with
    | none => simp only [hcl] at h; cases h
    | some c =>
      simp only [hcl] at h
      by_cases hemp : c.tool_calls.isEmpty
      · rw [if_pos hemp] at h
        cases h
        have hnil : c.tool_calls = [] := by
          cases hcs : c.tool_calls with
          | nil => rfl
          | cons a as => rw [hcs] at hemp; cases hemp
        apply checkPairs_append _ _ _ hck
        simp [checkPairs, hnil]
      · rw [if_neg hemp] at h
        cases toolExec with
        | none => dsimp only at h; cases h
        | some exec =>
          dsimp only at h
          cases hrt : runToolCalls exec c.tool_calls with
          | error e => rw [hrt] at h; cases h
          | ok msgs =>
            rw [hrt] at h
            have hblock : checkPairs []
                ({ role := "assistant", content := c.content,
                   tool_calls := c.tool_calls, tool_call_id := none } :: msgs)
                = true := by
              simp only [checkPairs]
              simpa using checkPairs_runToolCalls exec _ _ hrt
            have hnew : checkPairs []
                ((hist ++ [{ role := "assistant", content := c.content,
                             tool_calls := c.tool_calls, tool_call_id := none }])
                  ++ msgs) = true := by
              rw [List.append_assoc]
              exact checkPairs_append _ _ _ hck hblock
            exact ih _ _ _ _ hnew h

theorem executeToolCall_total (parse : String → Option Json)
    (runTool : String → Json → Except String Json) (call : ToolCall) :
    ∃ out, executeToolCall parse runTool call = .ok out := by
  simp only [executeToolCall]
  cases hrt : runTool call.name (specArguments parse call.arguments) with
  | error e => exact ⟨_, rfl⟩
  | ok r => cases r <;> exact ⟨_, rfl⟩

theorem chatEnsure_fresh (sessions : Sessions) (newUuid tid : String)
    (htid : tid ≠ "") (habsent : assocLookup sessions tid = none) :
    chatEnsure sessions newUuid (some tid) = sessionsSet sessions tid []
      ∧ chatTid newUuid (some tid) = tid := by
  constructor
  · simp [chatEnsure, chatTid, htid, habsent]
  · simp [chatTid, htid]

theorem chatEnsure_none (sessions : Sessions) (newUuid : String) :
    chatEnsure sessions newUuid none = sessionsSet sessions newUuid []
      ∧ chatTid newUuid none = newUuid := by
  constructor
  · simp [chatEnsure, chatTid, assocLookup]
  · simp [chatTid]

theorem chatEnsure_known (sessions : Sessions) (newUuid tid : String)
    (h : List Message) (htid : tid ≠ "")
    (hstore : assocLookup sessions tid = some h) :
    chatEnsure sessions newUuid (some tid) = sessions
      ∧ chatTid newUuid (some tid) = tid := by
  constructor
  · simp [chatEnsure, chatTid, htid, hstore]
  · simp [chatTid, htid]

theorem chat_error_store (client : Client) (orchExec : ToolExec)
    (parse : String → Option Json)
    (runTool : String → Json → Except String Json) (s : Settings)
    (sessions : Sessions) (newUuid runUuid msg : String)
    (agentType threadId : Option String) (e : ChatError)
    (herr : (chat client orchExec parse runTool s sessions newUuid runUuid
      msg agentType threadId).1 = .error e) :
    (chat client orchExec parse runTool s sessions newUuid runUuid
      msg agentType threadId).2 = chatEnsure sessions newUuid threadId := by
  unfold chat at herr ⊢
  by_cases hb : normalizeAgentType agentType = "orchestrator"
  · rw [if_pos hb] at herr ⊢
    split at herr <;> simp_all
  · rw [if_neg hb] at herr ⊢
    split at herr
    · rfl
    · split at herr <;> simp_all

theorem chat_store_shape (client : Client) (orchExec : ToolExec)
    (parse : String → Option Json)
    (runTool : String → Json → Except String Json) (s : Settings)
    (sessions : Sessions) (newUuid runUuid msg : String)
    (agentType threadId : Option String) :
    (chat client orchExec parse runTool s sessions newUuid runUuid
        msg agentType threadId).2 = chatEnsure sessions newUuid threadId ∨
    ∃ hist, (chat client orchExec parse runTool s sessions newUuid runUuid
        msg agentType threadId).2
      = sessionsSet (chatEnsure sessions newUuid threadId)
          (chatTid newUuid threadId) hist := by
  unfold chat
  by_cases hb : normalizeAgentType agentType = "orchestrator"
  · rw [if_pos hb]
    split
    · exact Or.inl rfl
    · exact Or.inr ⟨_, rfl⟩
  · rw [if_neg hb]
    split
    · exact Or.inl rfl
    · split
      · exact Or.inl rfl
      · exact Or.inr ⟨_, rfl⟩

theorem assocLookup_sessionsSet_isSome (ss : Sessions) (tid : String)
    (h : List Message) :
    (assocLookup (sessionsSet ss tid h) tid).isSome = true := by
  rw [assocLookup_sessionsSet_self]
  rfl

/-! Claim theorems. -/

/-- Claim C3: when the first completion is an assistant message free of
tool calls, the conversation loop terminates after exactly one iteration
and returns the assistant text, the seed history with that single
assistant message appended and nothing else changed, and the usage of
that completion. -/
theorem C3_single_iteration (client : Client) (toolExec : Option ToolExec)
    (H : List Message) (c : Completion)
    (h1 : client H = some c) (h2 : c.tool_calls = []) :
    chatWithTools client toolExec H 5 =
      .ok (c.content,
           H ++ [{ role := "assistant", content := c.content,
                   tool_calls := [], tool_call_id := none }],
           c.usage) := by
  rw [chatWithTools, map_cloneMessage]
  have h5 : (5 : Nat) = 4 + 1 := rfl
  rw [h5]
  simp [chatLoop, h1, h2]

/-- Claim C3 witness: a concrete tool-free first completion. -/
theorem C3_single_iteration_witness :
    chatWithTools (clientText "hi") none [{ role := "user", content := "q" }] 5 =
      .ok ("hi",
           [{ role := "user", content := "q" },
            { role := "assistant", content := "hi" }],
           none) :=
  C3_single_iteration (clientText "hi") none _ ⟨"hi", [], none⟩ rfl rfl

/-- Claim C4: the pairing invariant — every tool message answers, by id,
a tool call of the immediately preceding assistant message, with exactly
one tool message per call in emission order — is preserved by the
conversation loop for any iteration budget. -/
theorem C4_pairing (client : Client) (toolExec : Option ToolExec)
    (H H2 : List Message) (t : String) (u : Option Usage) (maxIt : Nat)
    (hseed : checkPairs [] H = true)
    (hrun : chatWithTools client toolExec H maxIt = .ok (t, H2, u)) :
    checkPairs [] H2 = true := by
  rw [chatWithTools, map_cloneMessage] at hrun
  exact chatLoop_pairs client toolExec maxIt H t H2 u hseed hrun

/-- Claim C4 witness: a run with one tool-call round then a final
answer. -/
theorem C4_pairing_witness :
    checkPairs []
      [ { role := "assistant", content := "",
          tool_calls := [⟨"tc1", "get_sales_summary", ""⟩], tool_call_id := none },
        { role := "tool", content := "out", tool_calls := [],
          tool_call_id := some "tc1" },
        { role := "assistant", content := "done", tool_calls := [],
          tool_call_id := none } ] = true :=
  C4_pairing clientOnce (some execOk) [] _ "done" none 5 rfl rfl

/-- Claim C7: an orchestrator tool call whose name maps to no registered
specialist key returns the structured JSON error payload naming the
requested tool, and never raises out of the tool-call handling. -/
theorem C7_unknown_tool (parse : String → Option Json)
    (runSpec : String → String → Except ChatError String) (s : Settings)
    (call : ToolCall)
    (hmap : assocLookup toolToAgent call.name = none) :
    executeOrchestratorTool parse runSpec s call
      = .ok (jsonDumps (.obj [("error", .str ("Unknown tool " ++ call.name))])) := by
  rw [executeOrchestratorTool, hmap]

/-- Claim C7 witness: a concrete unknown tool name, with a routing
function that would raise if it were consulted. -/
theorem C7_unknown_tool_witness :
    executeOrchestratorTool parseNone (fun _ _ => .error .noMessage) settings0
        ⟨"c1", "call_weird", ""⟩
      = .ok (jsonDumps (.obj [("error", .str "Unknown tool call_weird")])) :=
  C7_unknown_tool parseNone (fun _ _ => .error .noMessage) settings0 _ rfl

/-- Claim C2 counterexample: the claim fails for the orchestrator's
routing tool executor. A routed sales-specialist run that raises (here:
the completion response carries no message) propagates out of
`_execute_orchestrator_tool` instead of becoming an error tool message,
and the orchestrator loop is aborted by it: with a second completion
ready to answer "done", the loop still returns the exception. -/
theorem C2_counterexample :
    executeOrchestratorTool parseNone
        (fun key question =>
          (runSpecialist clientNone parseNone okTool settings0 key question).map Prod.fst)
        settings0 ⟨"c1", "call_sales_specialist", ""⟩
      = .error .noMessage ∧
    chatWithTools clientRouteOnce
        (some (executeOrchestratorTool parseNone
          (fun key question =>
            (runSpecialist clientNone parseNone okTool settings0 key question).map Prod.fst)
          settings0))
        [{ role := "system", content := "sys" },
         { role := "user", content := "hi" }] 5
      = .error .noMessage := by
  exact ⟨rfl, rfl⟩

/-- Claim C2 (amended): the specialist tool executor `_execute_tool_call`
catches execution exceptions per call: it always returns a result, a
raising dispatcher yields the serialized error dict, and a batch of tool
calls under it always produces one tool message per call, so the loop is
never aborted by it. (The orchestrator routing executor does not share
this guarantee, as the counterexample shows.) -/
theorem C2_specialist_executor_catches (parse : String → Option Json)
    (runTool : String → Json → Except String Json) (call : ToolCall) :
    (∃ out, executeToolCall parse runTool call = .ok out) ∧
    (∀ e, runTool call.name (specArguments parse call.arguments) = .error e →
       executeToolCall parse runTool call
         = .ok (jsonDumps (.obj [("error", .str e)]))) ∧
    (∀ calls, ∃ msgs,
       runToolCalls (executeToolCall parse runTool) calls = .ok msgs ∧
       msgs.length = calls.length) := by
  refine ⟨executeToolCall_total parse runTool call, ?_, ?_⟩
  · intro e he
    simp [executeToolCall, he]
  · intro calls
    exact runToolCalls_total _ (fun c => executeToolCall_total parse runTool c) calls

/-- Claim C2 witness: a dispatcher that raises "boom" is converted to the
serialized error dict. -/
theorem C2_specialist_executor_catches_witness :
    executeToolCall parseNone failTool ⟨"c1", "get_sales_summary", "bad"⟩
      = .ok (jsonDumps (.obj [("error", .str "boom")])) :=
  (C2_specialist_executor_catches parseNone failTool
    ⟨"c1", "get_sales_summary", "bad"⟩).2.1 "boom" rfl

/-- Claim C5 counterexample: the claim fails for the specialist tool
executor. With the malformed arguments text "oops", `_execute_tool_call`
passes the empty argument dict to the tool — echoing the arguments back
yields the empty JSON object, not the raw text wrapped as a single
string argument. -/
theorem C5_counterexample :
    executeToolCall parseNone echoTool ⟨"c1", "get_sales_summary", "oops"⟩
      = .ok (jsonDumps (.obj [])) ∧
    jsonDumps (.obj []) ≠ jsonDumps (.obj [("question", .str "oops")]) ∧
    specArguments parseNone "oops" = .obj [] := by
  refine ⟨rfl, ?_, rfl⟩
  decide

/-- Claim C5 (amended): malformed JSON arguments never raise a fatal
error in either executor; the orchestrator routing executor treats the
raw text as a single "question" string argument, while the specialist
executor replaces the arguments with the empty dict and still returns a
result. -/
theorem C5_malformed_arguments (parse : String → Option Json)
    (runTool : String → Json → Except String Json) (raw : String)
    (hbad : parse raw = none) (hne : raw ≠ "") :
    orchArguments parse raw = .obj [("question", .str raw)] ∧
    specArguments parse raw = .obj [] ∧
    (∀ i n, ∃ out, executeToolCall parse runTool ⟨i, n, raw⟩ = .ok out) := by
  refine ⟨?_, ?_, ?_⟩
  · simp [orchArguments, hbad, hne]
  · simp [specArguments, hbad, hne]
  · intro i n
    exact executeToolCall_total parse runTool ⟨i, n, raw⟩

/-- Claim C5 (amended) witness: concrete malformed text. -/
theorem C5_malformed_arguments_witness :
    orchArguments parseNone "oops" = .obj [("question", .str "oops")] ∧
    specArguments parseNone "oops" = .obj [] :=
  ⟨(C5_malformed_arguments parseNone okTool "oops" rfl (by decide)).1,
   (C5_malformed_arguments parseNone okTool "oops" rfl (by decide)).2.1⟩

/-- Claim C1: when every completion keeps requesting tool calls (and the
tool executor itself succeeds), the loop raises the maximum-iterations
error after its 5-call budget for every seed history, and a chat turn
hitting this raises it to the caller with the session store left exactly
as before the turn: the pre-turn history of the thread stays stored. -/
theorem C1_max_iterations (client : Client) (orchExec : ToolExec)
    (parse : String → Option Json)
    (runTool : String → Json → Except String Json) (s : Settings)
    (sessions : Sessions) (newUuid runUuid msg tid : String)
    (h : List Message)
    (hc : ∀ hist, ∃ c, client hist = some c ∧ c.tool_calls ≠ [])
    (he : ∀ call, ∃ out, orchExec call = .ok out)
    (htid : tid ≠ "") (hstore : assocLookup sessions tid = some h) :
    (∀ seed, chatWithTools client (some orchExec) seed 5 = .error .maxIterations) ∧
    chat client orchExec parse runTool s sessions newUuid runUuid msg none (some tid)
      = (.error .maxIterations, sessions) ∧
    assocLookup (chat client orchExec parse runTool s sessions newUuid runUuid
        msg none (some tid)).2 tid = some h := by
  have hloop : ∀ seed,
      chatWithTools client (some orchExec) seed 5 = .error .maxIterations :=
    fun seed => chatLoop_stuck client orchExec hc he 5 _
  have hens := chatEnsure_known sessions newUuid tid h htid hstore
  have hnorm : normalizeAgentType none = "orchestrator" := rfl
  have hchat : chat client orchExec parse runTool s sessions newUuid runUuid
      msg none (some tid) = (.error .maxIterations, sessions) := by
    simp [chat, hnorm, hens.1, hens.2, runOrchestrator, hloop]
  exact ⟨hloop, hchat, by rw [hchat]; exact hstore⟩

/-- Claim C1 witness: a client that always requests a tool call. -/
theorem C1_max_iterations_witness :
    chat clientLoop execOk parseNone okTool settings0
        [("t1", [{ role := "user", content := "old" }])] "NU" "RU" "msg"
        none (some "t1")
      = (.error .maxIterations,
         [("t1", [{ role := "user", content := "old" }])]) :=
  (C1_max_iterations clientLoop execOk parseNone okTool settings0
      [("t1", [{ role := "user", content := "old" }])] "NU" "RU" "msg" "t1"
      [{ role := "user", content := "old" }]
      (fun _ => ⟨⟨"", [⟨"tc1", "get_sales_summary", ""⟩], none⟩, rfl, by decide⟩)
      (fun _ => ⟨"out", rfl⟩) (by decide) rfl).2.1

/-- Claim C6: a routed orchestrator tool call runs the specialist on the
fresh two-message seed — its system prompt plus the routed (stripped)
question only — and returns the serialized payload with the
specialist's display name, identity and answer. -/
theorem C6_routing (client : Client) (parse : String → Option Json)
    (runTool : String → Json → Except String Json) (s : Settings)
    (call : ToolCall) (k q ans : String) (p : Profile) (hist : List Message)
    (hmap : assocLookup toolToAgent call.name = some k)
    (hq : questionOf (orchArguments parse call.arguments) = .ok q)
    (hp : assocLookup (specialistProfiles s) k = some p)
    (hrun : runSpecialist client parse runTool s k (pyStrip q) = .ok (ans, hist)) :
    executeOrchestratorTool parse
        (fun key question =>
          (runSpecialist client parse runTool s key question).map Prod.fst)
        s call
      = .ok (jsonDumps (.obj [("agent", .str p.display_name),
                              ("agent_id", .str p.id),
                              ("answer", .str ans)])) ∧
    ∃ fullHistory usage,
      chatWithTools client (specialistToolExec parse runTool p)
          (specialistSeed p (pyStrip q)) 5 = .ok (ans, fullHistory, usage) ∧
      hist = fullHistory.filter (fun m => m.role != "system") := by
  constructor
  · simp [executeOrchestratorTool, hmap, hq, hrun, hp, Except.map]
  · simp only [runSpecialist, hp] at hrun
    cases hcw : chatWithTools client (specialistToolExec parse runTool p)
        (specialistSeed p (pyStrip q)) 5 with
    | error e => rw [hcw] at hrun; cases hrun
    | ok r =>
      obtain ⟨t2, h2, u2⟩ := r
      rw [hcw] at hrun
      cases hrun
      exact ⟨h2, u2, rfl, rfl⟩

/-- Claim C6 witness: routing "call_analytics_specialist" with a client
that answers at once. -/
theorem C6_routing_witness :
    executeOrchestratorTool parseQuestion
        (fun key question =>
          (runSpecialist (clientText "Revenue is up") parseQuestion okTool
            settings0 key question).map Prod.fst)
        settings0 ⟨"c1", "call_analytics_specialist", "x"⟩
      = .ok (jsonDumps (.obj [("agent", .str "AnalyticsAssistant"),
                              ("agent_id", .str "analytics-agent-framework"),
                              ("answer", .str "Revenue is up")])) :=
  (C6_routing (clientText "Revenue is up") parseQuestion okTool settings0
      ⟨"c1", "call_analytics_specialist", "x"⟩ "analytics" " How are sales? "
      "Revenue is up" _ _ rfl rfl rfl rfl).1

/-- Claim C8: the empty, "sales", "orchestrator", "auto" and "default"
agent types (case-insensitively, after trimming) are all dispatched to
the orchestrator; no agent type can normalize to "sales", so the sales
profile is never selected directly; on success the returned agent id is
the orchestrator's. -/
theorem C8_orchestrator_dispatch :
    (∀ a : Option String,
        (pyLower (pyStrip (a.getD "")) = "" ∨
         pyLower (pyStrip (a.getD "")) = "sales" ∨
         pyLower (pyStrip (a.getD "")) = "orchestrator" ∨
         pyLower (pyStrip (a.getD "")) = "auto" ∨
         pyLower (pyStrip (a.getD "")) = "default") →
        normalizeAgentType a = "orchestrator") ∧
    (∀ a : Option String, normalizeAgentType a ≠ "sales") ∧
    (∀ (client : Client) (orchExec : ToolExec) (parse : String → Option Json)
        (runTool : String → Json → Except String Json) (s : Settings)
        (sessions : Sessions) (newUuid runUuid msg : String)
        (a threadId : Option String) (r : ChatResult) (ss2 : Sessions),
        normalizeAgentType a = "orchestrator" →
        chat client orchExec parse runTool s sessions newUuid runUuid msg
          a threadId = (.ok r, ss2) →
        r.agent_id = orchestratorAgentId s) := by
  refine ⟨?_, ?_, ?_⟩
  · intro a ha
    simp only [normalizeAgentType]
    rcases ha with h | h | h | h | h <;> simp [h]
  · intro a
    simp only [normalizeAgentType]
    split
    · decide
    · next hcond =>
      push_neg at hcond
      exact hcond.2.1
  · intro client orchExec parse runTool s sessions newUuid runUuid msg a
      threadId r ss2 hb hchat
    unfold chat at hchat
    rw [if_pos hb] at hchat
    split at hchat
    · simp at hchat
    · have hfst := congrArg Prod.fst hchat
      simp only [Prod.fst] at hfst
      cases hfst
      rfl

/-- Claim C8 witness: a trimmed, case-folded "sales" request goes to the
orchestrator, "analytics" does not normalize to "sales", and a concrete
successful orchestrator turn returns the orchestrator agent id. -/
theorem C8_orchestrator_dispatch_witness :
    normalizeAgentType (some " SALES ") = "orchestrator" ∧
    normalizeAgentType (some "analytics") ≠ "sales" ∧
    ({ response := "All good", thread_id := "t1", agent_id := "orch-id",
       run_id := "RU", metadata := some ⟨10, 5, 15⟩ } : ChatResult).agent_id
      = orchestratorAgentId settings0 :=
  ⟨C8_orchestrator_dispatch.1 (some " SALES ") (Or.inr (Or.inl rfl)),
   C8_orchestrator_dispatch.2.1 (some "analytics"),
   C8_orchestrator_dispatch.2.2 clientTextUsage execOk parseNone okTool
     settings0 [("t1", [])] "NU" "RU" "m" none (some "t1")
     { response := "All good", thread_id := "t1", agent_id := "orch-id",
       run_id := "RU", metadata := some ⟨10, 5, 15⟩ }
     [("t1", [{ role := "user", content := "m" },
              { role := "assistant", content := "All good" }])]
     rfl rfl⟩

/-- Claim C9: a chat request carrying an unknown (or absent) thread id
creates an empty-history entry for it; the entry exists after the turn
whatever happened, and after a fatally failing turn it still maps the
thread id to the empty history. -/
theorem C9_entry_persists (client : Client) (orchExec : ToolExec)
    (parse : String → Option Json)
    (runTool : String → Json → Except String Json) (s : Settings)
    (sessions : Sessions) (newUuid runUuid msg : String)
    (agentType : Option String) (tid : String)
    (htid : tid ≠ "") (habsent : assocLookup sessions tid = none) :
    (assocLookup (chat client orchExec parse runTool s sessions newUuid
        runUuid msg agentType (some tid)).2 tid).isSome = true ∧
    (∀ e, (chat client orchExec parse runTool s sessions newUuid runUuid
        msg agentType (some tid)).1 = .error e →
      assocLookup (chat client orchExec parse runTool s sessions newUuid
        runUuid msg agentType (some tid)).2 tid = some []) ∧
    (assocLookup (chat client orchExec parse runTool s sessions newUuid
        runUuid msg agentType none).2 newUuid).isSome = true := by
  have hens := chatEnsure_fresh sessions newUuid tid htid habsent
  refine ⟨?_, ?_, ?_⟩
  · rcases chat_store_shape client orchExec parse runTool s sessions newUuid
        runUuid msg agentType (some tid) with hsh | ⟨hist, hsh⟩
    · rw [hsh, hens.1]
      exact assocLookup_sessionsSet_isSome _ _ _
    · rw [hsh, hens.1, hens.2]
      exact assocLookup_sessionsSet_isSome _ _ _
  · intro e herr
    rw [chat_error_store client orchExec parse runTool s sessions newUuid
        runUuid msg agentType (some tid) e herr, hens.1]
    exact assocLookup_sessionsSet_self _ _ _
  · have hens2 := chatEnsure_none sessions newUuid
    rcases chat_store_shape client orchExec parse runTool s sessions newUuid
        runUuid msg agentType none with hsh | ⟨hist, hsh⟩
    · rw [hsh, hens2.1]
      exact assocLookup_sessionsSet_isSome _ _ _
    · rw [hsh, hens2.1, hens2.2]
      exact assocLookup_sessionsSet_isSome _ _ _

/-- Claim C9 witness: a turn that fails because the completion response
carries no message still leaves the fresh thread entry stored with the
empty history. -/
theorem C9_entry_persists_witness :
    assocLookup (chat clientNone execOk parseNone okTool settings0 [] "NU"
        "RU" "m" none (some "t9")).2 "t9" = some [] :=
  (C9_entry_persists clientNone execOk parseNone okTool settings0 [] "NU"
      "RU" "m" none "t9" (by decide) rfl).2.1 .noMessage rfl

/-- Claim C10: a successful turn addressed directly to a specialist
stores the user message twice — once appended by the chat entry point
and once again from the specialist's returned history — followed by the
specialist's assistant reply; stated for a specialist whose first
completion is tool-free. -/
theorem C10_duplicate_user_message (client : Client) (orchExec : ToolExec)
    (parse : String → Option Json)
    (runTool : String → Json → Except String Json) (s : Settings)
    (sessions : Sessions) (newUuid runUuid msg : String)
    (agentType : Option String) (tid k : String) (h : List Message)
    (p : Profile) (c : Completion)
    (hk : normalizeAgentType agentType = k) (hko : k ≠ "orchestrator")
    (hp : assocLookup (specialistProfiles s) k = some p)
    (htid : tid ≠ "") (hstore : assocLookup sessions tid = some h)
    (hc : client (specialistSeed p msg) = some c)
    (hfree : c.tool_calls = []) :
    chat client orchExec parse runTool s sessions newUuid runUuid msg
        agentType (some tid)
      = (.ok { response := c.content, thread_id := tid, agent_id := p.id,
               run_id := runUuid, metadata := none },
         sessionsSet sessions tid
           (h ++ [{ role := "user", content := msg },
                  { role := "user", content := msg },
                  { role := "assistant", content := c.content }])) := by
  have hens := chatEnsure_known sessions newUuid tid h htid hstore
  have hcw : chatWithTools client (specialistToolExec parse runTool p)
      (specialistSeed p msg) 5
      = .ok (c.content,
             specialistSeed p msg ++
               [{ role := "assistant", content := c.content,
                  tool_calls := [], tool_call_id := none }],
             c.usage) := by
    rw [chatWithTools, map_cloneMessage]
    have h5 : (5 : Nat) = 4 + 1 := rfl
    rw [h5]
    simp [chatLoop, hc, hfree]
  have hrs : runSpecialist client parse runTool s k msg
      = .ok (c.content,
             [{ role := "user", content := msg },
              { role := "assistant", content := c.content }]) := by
    simp only [runSpecialist, hp, hcw]
    simp [specialistSeed]
  simp [chat, hk, hko, hens.1, hens.2, hp, hrs, hstore, List.append_assoc]

/-- Claim C10 witness: a direct "analytics" turn on a thread holding one
old message. -/
theorem C10_duplicate_user_message_witness :
    chat (clientText "ans") execOk parseNone okTool settings0
        [("t1", [{ role := "user", content := "old" }])] "NU" "RU" "m"
        (some "analytics") (some "t1")
      = (.ok { response := "ans", thread_id := "t1",
               agent_id := "analytics-agent-framework", run_id := "RU",
               metadata := none },
         [("t1", [{ role := "user", content := "old" },
                  { role := "user", content := "m" },
                  { role := "user", content := "m" },
                  { role := "assistant", content := "ans" }])]) :=
  C10_duplicate_user_message (clientText "ans") execOk parseNone okTool
    settings0 [("t1", [{ role := "user", content := "old" }])] "NU" "RU" "m"
    (some "analytics") "t1" "analytics" [{ role := "user", content := "old" }]
    _ _ rfl (by decide) rfl (by decide) rfl rfl rfl

end AgentFramework
